import Mathlib

/-!
Verification of the tool-mediated answer-generation core of a RAG
(retrieval-augmented generation) course-assistant backend.

The development shallowly embeds `backend/search_tools.py` (the two tool
variants and the tool registry) and `backend/ai_generator.py` (the bounded
round orchestrator).  Python values are modelled as follows:

* `None`-able values become `Option`;
* Python truthiness tests (`if course_name:`, `if results.error:`) are
  modelled exactly, so `""` and `0` are falsy;
* a Python exception raised by a tool is modelled as `Except.error`, and an
  uncaught exception escaping a function is modelled as an `Option`-valued
  result being `none`;
* the remote LLM is an oracle `client : Nat → ModelResponse` giving the
  response to the k-th API call of the query (0-based);
* the vector store is the abstract interface record the spec declares
  an external collaborator.
-/

namespace RagCore

/-- Python truthiness of an `Optional[str]`: `None` and `""` are falsy. -/
def pyTruthyStr : Option String → Bool
  | some s => !s.isEmpty
  | none => false

/-- Python truthiness of an `Optional[int]`: `None` and `0` are falsy. -/
def pyTruthyInt : Option Int → Bool
  | some n => n != 0
  | none => false

/-- Python `str(x)` for an `Optional[int]` (`str(None) = "None"`). -/
def pyStrOptInt : Option Int → String
  | some n => toString n
  | none => "None"

/-- Modelled from the spec: `Source` lives in `models.py`, which is not under
`src/`; spec S3 gives `{text: string, link: optional URL}`. -/
structure Source where
  text : String
  link : Option String
deriving Repr, DecidableEq

/-- One metadata mapping attached to a retrieved chunk; the code reads the
keys `course_title` and `lesson_number` (each possibly absent). -/
structure ChunkMeta where
  course_title : Option String
  lesson_number : Option Int
deriving Repr, DecidableEq

/-- Modelled from the spec: `SearchResults` lives in `vector_store.py`, which
is not under `src/`; spec S3 gives `{documents, metadata (parallel), error:
optional string}`.  The `distances` field is never read by the code under
verification and is omitted. -/
structure SearchResults where
  documents : List String
  metadata : List ChunkMeta
  error : Option String
deriving Repr, DecidableEq

/-- Modelled from the spec: `documents` empty and `error` unset means
"no matches"; the repository tests pin `is_empty` to "documents empty". -/
def SearchResults.is_empty (r : SearchResults) : Bool :=
  r.documents.isEmpty

/-- One lesson entry of the course metadata mapping. -/
structure LessonMeta where
  lesson_number : Option Int
  lesson_title : Option String
deriving Repr, DecidableEq

/-- Course metadata mapping as returned by `get_all_courses_metadata`. -/
structure CourseMeta where
  title : Option String
  course_link : Option String
  lessons : List LessonMeta
deriving Repr, DecidableEq

/-- The vector-store interface the core consumes (spec S1): an external
collaborator, so it is an abstract record of operations. -/
structure VectorStore where
  search : String → Option String → Option Int → SearchResults
  get_lesson_link : String → Int → Option String
  _resolve_course_name : String → Option String
  get_all_courses_metadata : List CourseMeta

/-- State of `CourseSearchTool`: the store handle plus the mutable
`last_sources` buffer. -/
structure CourseSearchTool where
  store : VectorStore
  last_sources : List Source

/-- The `for doc, meta in zip(...)` loop of `CourseSearchTool._format_results`,
threading the `seen_sources` set and producing the `formatted` blocks and the
deduplicated `sources` list. -/
def formatResultsLoop (store : VectorStore) (seen : List String) :
    List (String × ChunkMeta) → List String × List Source
  | [] => ([], [])
  | (doc, meta) :: rest =>
    let course_title := meta.course_title.getD "unknown"
    let lesson_num := meta.lesson_number
    let header := "[" ++ course_title ++
      (match lesson_num with
       | some n => " - Lesson " ++ toString n
       | none => "") ++ "]"
    let source_key := course_title ++ "|" ++ pyStrOptInt lesson_num
    if source_key ∈ seen then
      let r := formatResultsLoop store seen rest
      ((header ++ "\n" ++ doc) :: r.1, r.2)
    else
      let source_text := course_title ++
        (match lesson_num with
         | some n => " - Lesson " ++ toString n
         | none => "")
      let link := match lesson_num with
        | some n => store.get_lesson_link course_title n
        | none => none
      let r := formatResultsLoop store (source_key :: seen) rest
      ((header ++ "\n" ++ doc) :: r.1, { text := source_text, link := link } :: r.2)

/-- `CourseSearchTool._format_results`: joins the blocks with blank lines and
replaces the `last_sources` buffer of the tool. -/
def CourseSearchTool._format_results (t : CourseSearchTool) (results : SearchResults) :
    String × CourseSearchTool :=
  let r := formatResultsLoop t.store [] (results.documents.zip results.metadata)
  (String.intercalate "\n\n" r.1, { t with last_sources := r.2 })

/-- `CourseSearchTool.execute`: error passthrough, empty-result message with
filter info, otherwise formatted results.  Returns the output string together
with the updated tool state. -/
def CourseSearchTool.execute (t : CourseSearchTool) (query : String)
    (course_name : Option String) (lesson_number : Option Int) :
    String × CourseSearchTool :=
  let results := t.store.search query course_name lesson_number
  if pyTruthyStr results.error then
    (results.error.getD "", t)
  else if results.is_empty then
    let filter_info :=
      (if pyTruthyStr course_name then
        " in course \x27" ++ course_name.getD "" ++ "\x27" else "") ++
      (if pyTruthyInt lesson_number then
        " in lesson " ++ toString (lesson_number.getD 0) else "")
    ("No relevant content found" ++ filter_info ++ ".", t)
  else
    t._format_results results

/-- State of `CourseOutlineTool`. -/
structure CourseOutlineTool where
  store : VectorStore
  last_sources : List Source

/-- `CourseOutlineTool._format_outline`: builds the outline text (the
`join` drops falsy lines, so the empty spacer and an absent link line vanish)
and replaces `last_sources` with the single course-level source. -/
def CourseOutlineTool._format_outline (t : CourseOutlineTool) (course_data : CourseMeta) :
    String × CourseOutlineTool :=
  let title := course_data.title.getD "Unknown Course"
  let course_link := course_data.course_link.getD ""
  let lessons := course_data.lessons
  let lines :=
    [ "Course: " ++ title,
      if !course_link.isEmpty then "Course Link: " ++ course_link else "",
      "Total Lessons: " ++ toString lessons.length,
      "",
      "Lessons:" ] ++
    lessons.map (fun lesson =>
      let lesson_num := match lesson.lesson_number with
        | some n => toString n
        | none => "?"
      let lesson_title := lesson.lesson_title.getD "Untitled"
      "  " ++ lesson_num ++ ". " ++ lesson_title)
  (String.intercalate "\n" (lines.filter (fun line => !line.isEmpty)),
   { t with last_sources := [{ text := title, link := some course_link }] })

/-- `CourseOutlineTool.execute`: resolve the title, fetch the metadata entry,
format; on either failure return the message and leave the state alone. -/
def CourseOutlineTool.execute (t : CourseOutlineTool) (course_title : String) :
    String × CourseOutlineTool :=
  let resolved := t.store._resolve_course_name course_title
  if !pyTruthyStr resolved then
    ("No course found matching \x27" ++ course_title ++ "\x27", t)
  else
    let resolved_title := resolved.getD ""
    let all_courses := t.store.get_all_courses_metadata
    match all_courses.find? (fun c => c.title == some resolved_title) with
    | none => ("Could not retrieve metadata for course \x27" ++ resolved_title ++ "\x27", t)
    | some course_data => t._format_outline course_data

/-- Keyword arguments of a tool call, as an ordered name/value list. -/
def ToolInput : Type := List (String × String)
deriving instance Repr, DecidableEq for ToolInput

/-- A tool registered in the manager: its `execute` (which may raise, modelled
by `Except.error` carrying the exception message) and its `last_sources`
buffer. -/
structure RegisteredTool where
  execute : ToolInput → Except String String
  last_sources : List Source

/-- State of `ToolManager`: tools keyed by name, in registration order. -/
structure ToolManager where
  tools : List (String × RegisteredTool)

/-- `ToolManager.execute_tool`: "not found" text for unregistered names,
otherwise delegate (exceptions from the tool propagate to the caller). -/
def ToolManager.execute_tool (m : ToolManager) (tool_name : String)
    (kwargs : ToolInput) : Except String String :=
  match m.tools.lookup tool_name with
  | none => Except.ok ("Tool \x27" ++ tool_name ++ "\x27 not found")
  | some tool => tool.execute kwargs

/-- `ToolManager.get_last_sources`: first non-empty `last_sources` over all
registered tools, else `[]`. -/
def ToolManager.get_last_sources (m : ToolManager) : List Source :=
  match m.tools.find? (fun p => !p.2.last_sources.isEmpty) with
  | some p => p.2.last_sources
  | none => []

/-- `ToolManager.reset_sources`: clear the buffer of every tool. -/
def ToolManager.reset_sources (m : ToolManager) : ToolManager :=
  { tools := m.tools.map (fun p => (p.1, { p.2 with last_sources := [] })) }

/-! ## The orchestrator (`ai_generator.py`) -/

/-- A content block of a model response.  In the Anthropic SDK, `TextBlock`
carries `text` and `ToolUseBlock` carries `name`, `input`, `id` (and no
`text` attribute), so the duck typing in the source becomes a tagged sum. -/
inductive ContentBlock where
  | text (t : String)
  | tool_use (name : String) (input : ToolInput) (id : String)
deriving Repr, DecidableEq

/-- Whether a block has a `text` attribute (`hasattr(block, "text")`). -/
def ContentBlock.isText : ContentBlock → Bool
  | .text _ => true
  | .tool_use _ _ _ => false

/-- A model response: stop reason plus ordered content blocks. -/
structure ModelResponse where
  stop_reason : String
  content : List ContentBlock
deriving Repr, DecidableEq

/-- A `tool_result` entry of the feedback message. -/
structure ToolResultBlock where
  tool_use_id : String
  content : String
deriving Repr, DecidableEq

/-- Content of a conversation message: the user query string, the assistant
content blocks, or a list of tool results. -/
inductive MessageContent where
  | text (s : String)
  | blocks (bs : List ContentBlock)
  | toolResults (rs : List ToolResultBlock)
deriving Repr, DecidableEq

/-- One conversation turn. -/
structure Message where
  role : String
  content : MessageContent
deriving Repr, DecidableEq

/-- A tool definition as forwarded to the model; the orchestrator never
inspects it beyond passing the list through. -/
structure ToolDef where
  name : String
deriving Repr, DecidableEq

/-- The keyword arguments of one `client.messages.create(**api_params)`
call: the pre-built base parameters plus messages, system and the optional
tools and tool-choice entries (`none` means the key is absent). -/
structure ApiParams where
  model : String
  temperature : Nat
  max_tokens : Nat
  messages : List Message
  system : String
  tools : Option (List ToolDef)
  tool_choice : Option String
deriving Repr, DecidableEq

/-- The `AIGenerator` configuration (the API key only feeds the SDK client,
which is abstracted into the response oracle). -/
structure AIGenerator where
  model : String

/-- `AIGenerator.MAX_TOOL_ROUNDS`. -/
def AIGenerator.MAX_TOOL_ROUNDS : Nat := 2

/-- `AIGenerator.SYSTEM_PROMPT` (verbatim). -/
def AIGenerator.SYSTEM_PROMPT : String :=
  " You are an AI assistant specialized in course materials and educational content with access to tools for course information.\n\nAvailable Tools:\n1. **search_course_content**: Search within course content for specific topics or information\n2. **get_course_outline**: Get the complete structure/outline of a course with all lessons\n\nTool Usage Guidelines:\n- Use **get_course_outline** when users ask about:\n  - Course structure, outline, or organization\n  - What lessons are in a course\n  - What topics a course covers\n  - How many lessons are in a course\n\n- Use **search_course_content** when users ask about:\n  - Specific topics, concepts, or information within course content\n  - Detailed explanations from course materials\n\n- **Up to 2 sequential tool calls per query** - Use this for complex questions requiring information from multiple sources (e.g., get course outline first, then search based on lesson title)\n- If no results are found, state this clearly without offering alternatives\n\nResponse Protocol:\n- **General knowledge questions**: Answer using existing knowledge without using tools\n- **Course-specific questions**: Use appropriate tool first, then answer\n- **No meta-commentary**:\n  - Provide direct answers only — no reasoning process, tool explanations, or question-type analysis\n  - Do not mention \"based on the search results\" or \"according to the outline\"\n\nWhen presenting course outlines:\n- Include the course title and link\n- List lessons with their numbers and titles\n\nAll responses must be:\n1. **Brief, Concise and focused** - Get to the point quickly\n2. **Educational** - Maintain instructional value\n3. **Clear** - Use accessible language\n4. **Example-supported** - Include relevant examples when they aid understanding\nProvide only the direct answer to what was asked.\n"

/-- The tool manager as the orchestrator sees it: `execute_tool(name, **kwargs)`,
which returns result text or raises (`Except.error` = raised exception). -/
def ToolManagerFn : Type := String → ToolInput → Except String String

/-- The `for content_block in current_response.content` dispatch loop:
execute each `tool_use` block, catching exceptions and converting them to
the tagged error text, and collect the `tool_result` entries in order. -/
def runToolCalls (tool_manager : ToolManagerFn) : List ContentBlock → List ToolResultBlock
  | [] => []
  | ContentBlock.text _ :: rest => runToolCalls tool_manager rest
  | ContentBlock.tool_use name input id :: rest =>
    { tool_use_id := id,
      content :=
        match tool_manager name input with
        | Except.ok r => r
        | Except.error e => "Tool execution error: " ++ e } ::
      runToolCalls tool_manager rest

/-- The final extraction loop of `_handle_tool_execution`: first block with a
`text` attribute, else `""`. -/
def firstTextBlock : List ContentBlock → String
  | [] => ""
  | ContentBlock.text t :: _ => t
  | ContentBlock.tool_use _ _ _ :: rest => firstTextBlock rest

/-- `response.content[0].text` of the zero-round path: `none` models the
uncaught `IndexError`/`AttributeError` when there is no leading text block. -/
def contentZeroText : List ContentBlock → Option String
  | ContentBlock.text t :: _ => some t
  | _ => none

/-- Observable outcome of one top-level query: the returned string (`none`
models an uncaught exception), the parameters of every model call made, in
order, and the number of tool-dispatch rounds executed. -/
structure RunTrace where
  result : Option String
  calls : List ApiParams
  dispatchRounds : Nat
deriving Repr, DecidableEq

/-- The `while round_count < MAX_TOOL_ROUNDS` loop of
`_handle_tool_execution`.  `fuel` is a termination gadget that always equals
`MAX_TOOL_ROUNDS - round_count` at every call site, so the Python guard on
`round_count` decides every exit exactly as in the source; `call_idx`,
`calls` and `disp` record the trace. -/
def handleRoundsLoop (g : AIGenerator) (client : Nat → ModelResponse)
    (tool_manager : ToolManagerFn) (base_system : String)
    (base_tools : Option (List ToolDef)) :
    Nat → List Message → ModelResponse → Nat → Nat → List ApiParams → Nat → RunTrace
  | 0, _, current, _, _, calls, disp =>
    { result := some (firstTextBlock current.content), calls := calls, dispatchRounds := disp }
  | fuel + 1, messages, current, round_count, call_idx, calls, disp =>
    if round_count < AIGenerator.MAX_TOOL_ROUNDS then
      let messages := messages ++
        [{ role := "assistant", content := MessageContent.blocks current.content }]
      let tool_results := runToolCalls tool_manager current.content
      let messages :=
        if !tool_results.isEmpty then
          messages ++ [{ role := "user", content := MessageContent.toolResults tool_results }]
        else messages
      let round_count := round_count + 1
      let keep_tools := decide (round_count < AIGenerator.MAX_TOOL_ROUNDS) && base_tools.isSome
      let followup_params : ApiParams :=
        { model := g.model, temperature := 0, max_tokens := 800,
          messages := messages, system := base_system,
          tools := if keep_tools then base_tools else none,
          tool_choice := if keep_tools then some "auto" else none }
      let current2 := client call_idx
      let calls := calls ++ [followup_params]
      let disp := disp + 1
      if current2.stop_reason ≠ "tool_use" then
        { result := some (firstTextBlock current2.content), calls := calls, dispatchRounds := disp }
      else
        handleRoundsLoop g client tool_manager base_system base_tools
          fuel messages current2 round_count (call_idx + 1) calls disp
    else
      { result := some (firstTextBlock current.content), calls := calls, dispatchRounds := disp }

/-- `AIGenerator._handle_tool_execution`, entered with the initial response;
`call_idx`/`calls` carry the trace of the one call already made. -/
def AIGenerator._handle_tool_execution (g : AIGenerator) (client : Nat → ModelResponse)
    (initial_response : ModelResponse) (base_params : ApiParams)
    (tool_manager : ToolManagerFn) (call_idx : Nat) (calls : List ApiParams) : RunTrace :=
  handleRoundsLoop g client tool_manager base_params.system base_params.tools
    AIGenerator.MAX_TOOL_ROUNDS base_params.messages initial_response 0 call_idx calls 0

/-- `AIGenerator.generate_response`: build system content and parameters,
make the first model call, branch on `stop_reason == "tool_use" and
tool_manager`. -/
def AIGenerator.generate_response (g : AIGenerator) (client : Nat → ModelResponse)
    (query : String) (conversation_history : Option String)
    (tools : Option (List ToolDef)) (tool_manager : Option ToolManagerFn) : RunTrace :=
  let system_content :=
    if pyTruthyStr conversation_history then
      AIGenerator.SYSTEM_PROMPT ++ "\n\nPrevious conversation:\n" ++
        conversation_history.getD ""
    else
      AIGenerator.SYSTEM_PROMPT
  let tools_truthy :=
    match tools with
    | some ts => !ts.isEmpty
    | none => false
  let api_params : ApiParams :=
    { model := g.model, temperature := 0, max_tokens := 800,
      messages := [{ role := "user", content := MessageContent.text query }],
      system := system_content,
      tools := if tools_truthy then tools else none,
      tool_choice := if tools_truthy then some "auto" else none }
  let response := client 0
  match tool_manager with
  | some tm =>
    if response.stop_reason = "tool_use" then
      g._handle_tool_execution client response api_params tm 1 [api_params]
    else
      { result := contentZeroText response.content, calls := [api_params], dispatchRounds := 0 }
  | none =>
    { result := contentZeroText response.content, calls := [api_params], dispatchRounds := 0 }

/-! ## Specification-side functions and general helpers -/

/-- Substring containment, used to state "the message contains/names X". -/
def strContains (s sub : String) : Prop :=
  ∃ a b : String, s = a ++ sub ++ b

/-- The `(course_title, lesson_number)` pair the code extracts from one
metadata mapping (metadata key `course_title`, default `unknown`). -/
def chunkPair (meta : ChunkMeta) : String × Option Int :=
  (meta.course_title.getD "unknown", meta.lesson_number)

/-- The deduplication key string the code builds for a pair. -/
def sourceKey (p : String × Option Int) : String :=
  p.1 ++ "|" ++ pyStrOptInt p.2

/-- Deduplication key of one `(document, metadata)` entry. -/
def entryKey (e : String × ChunkMeta) : String :=
  sourceKey (chunkPair e.2)

/-- The `Source` the code records for a pair: label `title( - Lesson n)?`,
link resolved through the store only when a lesson number is present. -/
def sourceOfPair (store : VectorStore) (p : String × Option Int) : Source :=
  match p.2 with
  | some n => { text := p.1 ++ " - Lesson " ++ toString n,
                link := store.get_lesson_link p.1 n }
  | none => { text := p.1, link := none }

/-- The labeled block the code emits for one `(document, metadata)` entry. -/
def blockOf (e : String × ChunkMeta) : String :=
  "[" ++ (e.2.course_title.getD "unknown") ++
    (match e.2.lesson_number with
     | some n => " - Lesson " ++ toString n
     | none => "") ++ "]" ++ "\n" ++ e.1

/-- First-seen deduplication by key: keep each element whose key has not
occurred earlier in the list, in order of first occurrence. -/
def dedupByKey {α β : Type} (f : α → β) [DecidableEq β] : List α → List α
  | [] => []
  | a :: as => a :: (dedupByKey f as).filter (fun x => f x ≠ f a)

/-! ## Concrete fixtures used by witnesses and counterexamples -/

/-- A store whose `search` returns the given results whatever the query, with
computable lesson links; course-name resolution always fails and the course
catalogue is empty. -/
def constStore (r : SearchResults) : VectorStore :=
  { search := fun _ _ _ => r,
    get_lesson_link := fun t n => some ("link/" ++ t ++ "/" ++ toString n),
    _resolve_course_name := fun _ => none,
    get_all_courses_metadata := [] }

/-- A fresh search tool over `constStore r`. -/
def searchToolOf (r : SearchResults) : CourseSearchTool :=
  { store := constStore r, last_sources := [] }

/-- Empty search results (no documents, no error). -/
def emptyResults : SearchResults :=
  { documents := [], metadata := [], error := none }

/-- A model response that requests one tool call. -/
def toolUseResponse : ModelResponse :=
  { stop_reason := "tool_use",
    content := [ContentBlock.tool_use "search_course_content" [("query", "q")] "toolu_1"] }

/-- A terminal model response with one text block. -/
def endTurnResponse : ModelResponse :=
  { stop_reason := "end_turn", content := [ContentBlock.text "final answer"] }

/-- A client that requests a tool call on every round. -/
def alwaysToolClient : Nat → ModelResponse := fun _ => toolUseResponse

/-- A client that requests one tool round and then answers. -/
def oneRoundClient : Nat → ModelResponse := fun k =>
  if k = 0 then toolUseResponse else endTurnResponse

/-- A client that answers directly with no tool use. -/
def directClient : Nat → ModelResponse := fun _ => endTurnResponse

/-- A client that requests one tool round and then ends with a terminal
response carrying no text block. -/
def toolThenNoTextClient : Nat → ModelResponse := fun k =>
  if k = 0 then toolUseResponse else { stop_reason := "end_turn", content := [] }

/-- A client whose terminal response carries no text block at all. -/
def noTextClient : Nat → ModelResponse := fun _ =>
  { stop_reason := "end_turn", content := [] }

/-- A tool manager function that always succeeds. -/
def okTM : ToolManagerFn := fun _ _ => Except.ok "tool result"

/-- A tool manager function that always raises. -/
def raiseTM : ToolManagerFn := fun _ _ => Except.error "boom"

/-! ## General helper lemmas -/

theorem strContains_of_eq {s a sub b : String} (h : s = a ++ sub ++ b) :
    strContains s sub := ⟨a, b, h⟩

theorem strContains_refl (s : String) : strContains s s :=
  ⟨"", "", by rw [String.append_empty]; rfl⟩

theorem strContains_app_left {s sub : String} (h : strContains s sub) (u : String) :
    strContains (s ++ u) sub := by
  obtain ⟨a, b, hab⟩ := h
  exact ⟨a, b ++ u, by rw [hab]; simp [String.append_assoc]⟩

theorem strContains_app_right {s sub : String} (u : String) (h : strContains s sub) :
    strContains (u ++ s) sub := by
  obtain ⟨a, b, hab⟩ := h
  exact ⟨u ++ a, b, by rw [hab]; simp [String.append_assoc]⟩

theorem dedupByKey_keys_nodup {α β : Type} (f : α → β) [DecidableEq β] :
    ∀ l : List α, ((dedupByKey f l).map f).Nodup := by
  intro l
  induction l with
  | nil => simp [dedupByKey]
  | cons a as ih =>
    simp only [dedupByKey, List.map_cons, List.nodup_cons]
    constructor
    · intro hmem
      rcases List.mem_map.mp hmem with ⟨x, hx, hfx⟩
      exact absurd hfx (by simpa using (List.mem_filter.mp hx).2)
    · exact ih.sublist ((List.filter_sublist _).map f)

/-! ## Lemmas about the formatting loop of the search tool -/

theorem formatResultsLoop_formatted (store : VectorStore) :
    ∀ (l : List (String × ChunkMeta)) (seen : List String),
      (formatResultsLoop store seen l).1 = l.map blockOf := by
  intro l
  induction l with
  | nil => intro seen; rfl
  | cons e rest ih =>
    intro seen
    obtain ⟨doc, meta⟩ := e
    by_cases h : entryKey (doc, meta) ∈ seen
    · simp only [formatResultsLoop, entryKey, sourceKey, chunkPair] at h ⊢
      rw [if_pos h]
      simp [ih, blockOf]
    · simp only [formatResultsLoop, entryKey, sourceKey, chunkPair] at h ⊢
      rw [if_neg h]
      simp [ih, blockOf]

theorem filter_notmem_cons {α : Type} (f : α → String) (k : String) (seen : List String)
    (l : List α) :
    ((l.filter (fun x => f x ≠ k)).filter (fun x => decide (f x ∉ seen))) =
      l.filter (fun x => decide (f x ∉ (k :: seen))) := by
  rw [List.filter_filter]
  apply List.filter_congr
  intro x _
  by_cases hk : f x = k
  · simp [hk]
  · by_cases hs : f x ∈ seen <;> simp [hk, hs]

theorem filter_notmem_of_mem {α : Type} (f : α → String) (k : String) (seen : List String)
    (hk : k ∈ seen) (l : List α) :
    ((l.filter (fun x => f x ≠ k)).filter (fun x => decide (f x ∉ seen))) =
      l.filter (fun x => decide (f x ∉ seen)) := by
  rw [List.filter_filter]
  apply List.filter_congr
  intro x _
  by_cases hs : f x ∈ seen
  · simp [hs]
  · have hne : f x ≠ k := fun h => hs (h ▸ hk)
    simp [hs, hne]

theorem formatResultsLoop_sources (store : VectorStore) :
    ∀ (l : List (String × ChunkMeta)) (seen : List String),
      (formatResultsLoop store seen l).2 =
        ((dedupByKey entryKey l).filter (fun e => decide (entryKey e ∉ seen))).map
          (fun e => sourceOfPair store (chunkPair e.2)) := by
  intro l
  induction l with
  | nil => intro seen; rfl
  | cons e rest ih =>
    intro seen
    obtain ⟨doc, meta⟩ := e
    have hk : (meta.course_title.getD "unknown" ++ "|" ++ pyStrOptInt meta.lesson_number) =
        entryKey (doc, meta) := rfl
    by_cases h : entryKey (doc, meta) ∈ seen
    · have h' : (meta.course_title.getD "unknown" ++ "|" ++ pyStrOptInt meta.lesson_number) ∈ seen := h
      simp only [formatResultsLoop]
      rw [if_pos h']
      have hdec : decide (entryKey (doc, meta) ∉ seen) = false := by simpa using h
      simp only [dedupByKey]
      rw [List.filter_cons_of_neg (by simpa using h)]
      rw [ih seen, filter_notmem_of_mem entryKey (entryKey (doc, meta)) seen h]
    · have h' : (meta.course_title.getD "unknown" ++ "|" ++ pyStrOptInt meta.lesson_number) ∉ seen := h
      simp only [formatResultsLoop]
      rw [if_neg h']
      simp only [dedupByKey]
      rw [List.filter_cons_of_pos (by simpa using h)]
      rw [hk, ih (entryKey (doc, meta) :: seen),
        filter_notmem_cons entryKey (entryKey (doc, meta)) seen]
      simp only [List.map_cons]
      congr 1
      cases hl : meta.lesson_number <;>
        simp [sourceOfPair, chunkPair, hl, String.append_assoc]

/-! ## Lemmas about the orchestrator loop -/

theorem handleRoundsLoop_isSome (g : AIGenerator) (client : Nat → ModelResponse)
    (tool_manager : ToolManagerFn) (base_system : String)
    (base_tools : Option (List ToolDef)) :
    ∀ (fuel : Nat) (messages : List Message) (current : ModelResponse)
      (round_count call_idx : Nat) (calls : List ApiParams) (disp : Nat),
      (handleRoundsLoop g client tool_manager base_system base_tools
        fuel messages current round_count call_idx calls disp).result.isSome := by
  intro fuel
  induction fuel with
  | zero => intros; simp [handleRoundsLoop]
  | succ fuel ih =>
    intro messages current round_count call_idx calls disp
    simp only [handleRoundsLoop]
    by_cases h1 : round_count < AIGenerator.MAX_TOOL_ROUNDS
    · rw [if_pos h1]
      by_cases h2 : (client call_idx).stop_reason ≠ "tool_use"
      · rw [if_pos h2]; rfl
      · rw [if_neg h2]; exact ih _ _ _ _ _ _
    · rw [if_neg h1]; rfl

theorem handleRoundsLoop_textFree (g : AIGenerator) (client : Nat → ModelResponse)
    (tool_manager : ToolManagerFn) (base_system : String)
    (base_tools : Option (List ToolDef))
    (hclient : ∀ k, firstTextBlock (client k).content = "") :
    ∀ (fuel : Nat) (messages : List Message) (current : ModelResponse)
      (round_count call_idx : Nat) (calls : List ApiParams) (disp : Nat),
      firstTextBlock current.content = "" →
      (handleRoundsLoop g client tool_manager base_system base_tools
        fuel messages current round_count call_idx calls disp).result = some "" := by
  intro fuel
  induction fuel with
  | zero => intro _ _ _ _ _ _ hcur; simp [handleRoundsLoop, hcur]
  | succ fuel ih =>
    intro messages current round_count call_idx calls disp hcur
    simp only [handleRoundsLoop]
    by_cases h1 : round_count < AIGenerator.MAX_TOOL_ROUNDS
    · rw [if_pos h1]
      by_cases h2 : (client call_idx).stop_reason ≠ "tool_use"
      · rw [if_pos h2]; simp [hclient call_idx]
      · rw [if_neg h2]; exact ih _ _ _ _ _ _ (hclient call_idx)
    · rw [if_neg h1]; simp [hcur]

theorem handleRoundsLoop_calls_mono (g : AIGenerator) (client : Nat → ModelResponse)
    (tool_manager : ToolManagerFn) (base_system : String)
    (base_tools : Option (List ToolDef)) :
    ∀ (fuel : Nat) (messages : List Message) (current : ModelResponse)
      (round_count call_idx : Nat) (calls : List ApiParams) (disp : Nat)
      (p : ApiParams), p ∈ calls →
      p ∈ (handleRoundsLoop g client tool_manager base_system base_tools
        fuel messages current round_count call_idx calls disp).calls := by
  intro fuel
  induction fuel with
  | zero => intro _ _ _ _ _ _ p hp; simpa [handleRoundsLoop] using hp
  | succ fuel ih =>
    intro messages current round_count call_idx calls disp p hp
    simp only [handleRoundsLoop]
    by_cases h1 : round_count < AIGenerator.MAX_TOOL_ROUNDS
    · rw [if_pos h1]
      by_cases h2 : (client call_idx).stop_reason ≠ "tool_use"
      · rw [if_pos h2]
        exact List.mem_append_left _ hp
      · rw [if_neg h2]
        exact ih _ _ _ _ _ _ p (List.mem_append_left _ hp)
    · rw [if_neg h1]
      exact hp

theorem handleRoundsLoop_step_max (g : AIGenerator) (client : Nat → ModelResponse)
    (tool_manager : ToolManagerFn) (base_system : String)
    (base_tools : Option (List ToolDef)) (messages : List Message)
    (current : ModelResponse) (round_count call_idx : Nat) (calls : List ApiParams)
    (disp : Nat) (hrc : round_count < AIGenerator.MAX_TOOL_ROUNDS)
    (hstop : (client call_idx).stop_reason = "tool_use") :
    ∃ (messages2 : List Message) (calls2 : List ApiParams),
      handleRoundsLoop g client tool_manager base_system base_tools
          AIGenerator.MAX_TOOL_ROUNDS messages current round_count call_idx calls disp =
        handleRoundsLoop g client tool_manager base_system base_tools 1
          messages2 (client call_idx) (round_count + 1) (call_idx + 1) calls2 (disp + 1) := by
  show ∃ (messages2 : List Message) (calls2 : List ApiParams),
    handleRoundsLoop g client tool_manager base_system base_tools
        (1 + 1) messages current round_count call_idx calls disp = _
  simp only [handleRoundsLoop]
  rw [if_pos hrc, if_neg (by simp [hstop])]
  exact ⟨_, _, rfl⟩

theorem handleRoundsLoop_final_text (g : AIGenerator) (client : Nat → ModelResponse)
    (tool_manager : ToolManagerFn) (base_system : String)
    (base_tools : Option (List ToolDef)) :
    ∀ (fuel : Nat) (messages : List Message) (current : ModelResponse)
      (round_count call_idx : Nat) (calls : List ApiParams) (disp : Nat),
      current = client (call_idx - 1) → call_idx = calls.length →
      (handleRoundsLoop g client tool_manager base_system base_tools
          fuel messages current round_count call_idx calls disp).result =
        some (firstTextBlock (client
          ((handleRoundsLoop g client tool_manager base_system base_tools
              fuel messages current round_count call_idx calls disp).calls.length - 1)).content) := by
  intro fuel
  induction fuel with
  | zero =>
    intro _ current round_count call_idx calls disp hcur hci
    subst hci
    simp only [handleRoundsLoop]
    rw [hcur]
  | succ fuel ih =>
    intro messages current round_count call_idx calls disp hcur hci
    simp only [handleRoundsLoop]
    by_cases h1 : round_count < AIGenerator.MAX_TOOL_ROUNDS
    · rw [if_pos h1]
      by_cases h2 : (client call_idx).stop_reason ≠ "tool_use"
      · rw [if_pos h2]
        subst hci
        simp [List.length_append]
      · rw [if_neg h2]
        exact ih _ (client call_idx) (round_count + 1) (call_idx + 1) _ (disp + 1)
          (by simp) (by simp [hci])
    · rw [if_neg h1]
      subst hci
      rw [hcur]

theorem runToolCalls_mem (tool_manager : ToolManagerFn) (name : String)
    (input : ToolInput) (id e : String) :
    ∀ bs : List ContentBlock, ContentBlock.tool_use name input id ∈ bs →
      tool_manager name input = Except.error e →
      ({ tool_use_id := id, content := "Tool execution error: " ++ e } : ToolResultBlock) ∈
        runToolCalls tool_manager bs := by
  intro bs
  induction bs with
  | nil => intro h; cases h
  | cons b rest ih =>
    intro hmem herr
    cases b with
    | text t =>
      have : ContentBlock.tool_use name input id ∈ rest := by
        rcases List.mem_cons.mp hmem with h | h
        · cases h
        · exact h
      exact ih this herr
    | tool_use n i d =>
      rcases List.mem_cons.mp hmem with h | h
      · injection h with h1 h2 h3
        subst h1; subst h2; subst h3
        simp [runToolCalls, herr]
      · exact List.mem_cons_of_mem _ (ih h herr)

theorem handleRoundsLoop_feedback (g : AIGenerator) (client : Nat → ModelResponse)
    (tool_manager : ToolManagerFn) (base_system : String)
    (base_tools : Option (List ToolDef)) (fuel : Nat) (messages : List Message)
    (current : ModelResponse) (round_count call_idx : Nat) (calls : List ApiParams)
    (disp : Nat) (hrc : round_count < AIGenerator.MAX_TOOL_ROUNDS) (hfuel : fuel ≠ 0)
    (hne : (runToolCalls tool_manager current.content).isEmpty = false) :
    ∃ p ∈ (handleRoundsLoop g client tool_manager base_system base_tools
        fuel messages current round_count call_idx calls disp).calls,
      ({ role := "user",
         content := MessageContent.toolResults (runToolCalls tool_manager current.content) } :
        Message) ∈ p.messages := by
  cases fuel with
  | zero => exact absurd rfl hfuel
  | succ fuel =>
    simp only [handleRoundsLoop]
    rw [if_pos hrc]
    by_cases h2 : (client call_idx).stop_reason ≠ "tool_use"
    · rw [if_pos h2]
      simp only [hne, Bool.not_false, if_true]
      exact ⟨_, List.mem_append_right _ (List.mem_singleton.mpr rfl),
        List.mem_append_right _ (List.mem_singleton.mpr rfl)⟩
    · rw [if_neg h2]
      simp only [hne, Bool.not_false, if_true]
      exact ⟨_, handleRoundsLoop_calls_mono g client tool_manager base_system base_tools
        _ _ _ _ _ _ _ _ (List.mem_append_right _ (List.mem_singleton.mpr rfl)),
        List.mem_append_right _ (List.mem_singleton.mpr rfl)⟩

theorem get_last_sources_congr :
    ∀ l l' : List (String × RegisteredTool),
      l.map (fun p => (p.1, p.2.last_sources)) = l'.map (fun p => (p.1, p.2.last_sources)) →
      ToolManager.get_last_sources ⟨l⟩ = ToolManager.get_last_sources ⟨l'⟩ := by
  intro l
  induction l with
  | nil =>
    intro l' h
    cases l' with
    | nil => rfl
    | cons p t => exact absurd h.symm (by simp)
  | cons p t ih =>
    intro l' h
    cases l' with
    | nil => exact absurd h (by simp)
    | cons p' t' =>
      simp only [List.map_cons, List.cons.injEq, Prod.mk.injEq] at h
      obtain ⟨⟨h1, hls⟩, ht⟩ := h
      simp only [ToolManager.get_last_sources, List.find?]
      rw [hls]
      by_cases hp : p'.2.last_sources.isEmpty
      · rw [hp]
        simpa only [ToolManager.get_last_sources] using ih t' ht
      · rw [Bool.not_eq_true] at hp
        rw [hp]
        simp [hls]

/-! ## Claims -/

/-- C3 counterexample: a `SearchResults` whose `error` field is set to the
empty string.  Python's `if results.error:` is false for `""`, so `execute`
falls through to the empty-results message instead of returning the error
string exactly (here the error is `""` but the output is the no-content
message). -/
theorem C3_error_counterexample :
    ((searchToolOf { documents := [], metadata := [], error := some "" }).execute
        "q" none none).1 = "No relevant content found." ∧
    ((searchToolOf { documents := [], metadata := [], error := some "" }).store.search
        "q" none none).error = some "" ∧
    ("No relevant content found." : String) ≠ "" := by
  refine ⟨rfl, rfl, by decide⟩

/-- C3 (amended): for every `SearchResults` whose `error` field is set to a
non-empty string, `CourseSearchTool.execute` returns that error string
exactly, regardless of the documents and metadata it contains. -/
theorem C3_error_passthrough (t : CourseSearchTool) (query : String)
    (course_name : Option String) (lesson_number : Option Int) (e : String)
    (herr : (t.store.search query course_name lesson_number).error = some e)
    (hne : e ≠ "") :
    (t.execute query course_name lesson_number).1 = e := by
  have hemp : e.isEmpty = false := by
    rw [Bool.eq_false_iff]
    intro hti
    exact hne ((String.isEmpty_iff e).mp hti)
  simp only [CourseSearchTool.execute, herr]
  rw [if_pos (by simp [pyTruthyStr, hemp])]
  rfl

/-- C3 witness. -/
theorem C3_error_passthrough_witness :
    ((searchToolOf ⟨["doc"], [⟨some "A", some 1⟩], some "Search failed"⟩).execute
      "q" none none).1 = "Search failed" :=
  C3_error_passthrough _ "q" none none "Search failed" rfl (by decide)

/-- C8: dispatching a call to a tool name that is not registered never raises
(the result is `Except.ok`, never the `Except.error` that models a raised
exception); the returned string contains the "not found" marker and names the
tool. -/
theorem C8_unregistered_dispatch (m : ToolManager) (tool_name : String)
    (kwargs : ToolInput) (h : ∀ p ∈ m.tools, p.1 ≠ tool_name) :
    m.execute_tool tool_name kwargs =
      Except.ok ("Tool \x27" ++ tool_name ++ "\x27 not found") ∧
    strContains ("Tool \x27" ++ tool_name ++ "\x27 not found") "not found" ∧
    strContains ("Tool \x27" ++ tool_name ++ "\x27 not found") tool_name := by
  refine ⟨?_, ?_, ⟨"Tool \x27", "\x27 not found", rfl⟩⟩
  · have hlk : ∀ (l : List (String × RegisteredTool)), (∀ p ∈ l, p.1 ≠ tool_name) →
        l.lookup tool_name = none := by
      intro l
      induction l with
      | nil => intro _; rfl
      | cons p rest ih =>
        intro hl
        have hp : p.1 ≠ tool_name := hl p (List.mem_cons_self _ _)
        have hbeq : (tool_name == p.1) = false := by
          simp only [beq_eq_false_iff_ne]
          exact fun hh => hp hh.symm
        simp only [List.lookup, hbeq]
        exact ih (fun q hq => hl q (List.mem_cons_of_mem _ hq))
    simp [ToolManager.execute_tool, hlk m.tools h]
  · refine ⟨"Tool \x27" ++ tool_name ++ "\x27 ", "", ?_⟩
    rw [String.append_empty]
    simp only [String.append_assoc]
    rfl

/-- C8 witness: dispatch on an empty registry. -/
theorem C8_unregistered_dispatch_witness :
    ({ tools := [] } : ToolManager).execute_tool "ghost_tool" [] =
      Except.ok ("Tool \x27" ++ "ghost_tool" ++ "\x27 not found") ∧
    strContains ("Tool \x27" ++ "ghost_tool" ++ "\x27 not found") "not found" ∧
    strContains ("Tool \x27" ++ "ghost_tool" ++ "\x27 not found") "ghost_tool" :=
  C8_unregistered_dispatch { tools := [] } "ghost_tool" [] (by intro p hp; cases hp)

/-- C4: the sources recorded by `_format_results` are the first-seen-order
deduplication of the `(course_title, lesson_number)` pairs of the result
batch (`dedupByKey` keyed by the `title|lesson` string the code builds, which
determines the pair), each mapped to the `Source` whose lesson link is
resolved exactly when a lesson number is present (`sourceOfPair`); the keys
of the recorded entries are pairwise distinct; and on the instance given by the claim
`[(A,1),(A,1),(A,2)]` exactly two sources are recorded, in order
`(A,1), (A,2)`. -/
theorem C4_source_dedup :
    (∀ (t : CourseSearchTool) (results : SearchResults),
      (t._format_results results).2.last_sources =
        (dedupByKey entryKey (results.documents.zip results.metadata)).map
          (fun e => sourceOfPair t.store (chunkPair e.2))) ∧
    (∀ l : List (String × ChunkMeta), ((dedupByKey entryKey l).map entryKey).Nodup) ∧
    ((searchToolOf emptyResults)._format_results
        ⟨["d1", "d2", "d3"],
         [⟨some "A", some 1⟩, ⟨some "A", some 1⟩, ⟨some "A", some 2⟩], none⟩).2.last_sources =
      [⟨"A - Lesson 1", some "link/A/1"⟩, ⟨"A - Lesson 2", some "link/A/2"⟩] := by
  refine ⟨?_, dedupByKey_keys_nodup entryKey, by decide⟩
  intro t results
  simp only [CourseSearchTool._format_results]
  rw [formatResultsLoop_sources]
  rw [List.filter_eq_self.mpr (by intro a _; simp)]

/-- C6 counterexample: the code separates the course title and the lesson
number with `" - Lesson "`, not `", Lesson "`: on a single result with
metadata `(A, 1)` and document `d` the block is `[A - Lesson 1]\nd`, not the
claimed `[A, Lesson 1]\nd`. -/
theorem C6_block_format_counterexample :
    ((searchToolOf emptyResults)._format_results
        ⟨["d"], [⟨some "A", some 1⟩], none⟩).1 = "[A - Lesson 1]\nd" ∧
    ((searchToolOf emptyResults)._format_results
        ⟨["d"], [⟨some "A", some 1⟩], none⟩).1 ≠ "[A, Lesson 1]\nd" := by
  exact ⟨by decide, by decide⟩

/-- C6 (amended): for every result batch with at least one document and no
error, each `(document, metadata)` pair becomes the labeled block
`[<course title>( - Lesson <n>)?]` followed by a newline and the document
text (`blockOf`), the blocks are joined with blank-line separators, and the
store order is preserved (the output is a per-element `map`, no
re-sorting).  The equation holds for every batch, whether or not it is
empty. -/
theorem C6_block_format (t : CourseSearchTool) (results : SearchResults) :
    (t._format_results results).1 =
      String.intercalate "\n\n" ((results.documents.zip results.metadata).map blockOf) := by
  simp only [CourseSearchTool._format_results]
  rw [formatResultsLoop_formatted]

/-- C5 counterexample: a supplied lesson-number filter of `0` is falsy in
Python (`if lesson_number:`), so the empty-results message does not name it:
the output is exactly `No relevant content found.` and contains no character
`0` at all. -/
theorem C5_empty_message_counterexample :
    ((searchToolOf emptyResults).execute "q" none (some 0)).1 =
      "No relevant content found." ∧
    ("No relevant content found." : String).data.contains '0' = false := by
  exact ⟨rfl, by decide⟩

/-- C5 (amended): for every `SearchResults` with empty documents and
non-truthy error, the output contains "No relevant content found", and it
names the course filter whenever `course_name` is a non-empty string and the
lesson filter whenever `lesson_number` is non-zero (a supplied `""` course or
`0` lesson is falsy in Python and is not named). -/
theorem C5_empty_message (t : CourseSearchTool) (query : String)
    (course_name : Option String) (lesson_number : Option Int)
    (herr : pyTruthyStr (t.store.search query course_name lesson_number).error = false)
    (hemp : (t.store.search query course_name lesson_number).is_empty = true) :
    strContains (t.execute query course_name lesson_number).1 "No relevant content found" ∧
    (∀ c : String, course_name = some c → c ≠ "" →
      strContains (t.execute query course_name lesson_number).1 c) ∧
    (∀ n : Int, lesson_number = some n → n ≠ 0 →
      strContains (t.execute query course_name lesson_number).1 (toString n)) := by
  have hout : (t.execute query course_name lesson_number).1 =
      "No relevant content found" ++
        ((if pyTruthyStr course_name then
            " in course \x27" ++ course_name.getD "" ++ "\x27" else "") ++
         (if pyTruthyInt lesson_number then
            " in lesson " ++ toString (lesson_number.getD 0) else "")) ++ "." := by
    simp only [CourseSearchTool.execute]
    rw [if_neg (by simp [herr]), if_pos hemp]
  refine ⟨?_, ?_, ?_⟩
  · rw [hout]
    exact strContains_app_left
      (strContains_app_left (strContains_refl "No relevant content found") _) _
  · intro c hc hcne
    subst hc
    have htr : pyTruthyStr (some c) = true := by
      simp only [pyTruthyStr, Bool.not_eq_true']
      rw [Bool.eq_false_iff]
      intro hti
      exact hcne ((String.isEmpty_iff c).mp hti)
    rw [hout, htr]
    simp only [if_true, Option.getD_some]
    refine strContains_app_left (strContains_app_right _ ?_) _
    exact strContains_app_left (strContains_of_eq rfl) _
  · intro n hn hnne
    subst hn
    have htr : pyTruthyInt (some n) = true := by
      simp [pyTruthyInt, hnne]
    rw [hout, htr]
    simp only [if_true, Option.getD_some]
    refine strContains_app_left (strContains_app_right _ (strContains_app_right _ ?_)) _
    exact ⟨" in lesson ", "", (String.append_empty _).symm⟩

/-- C1: if the model requests a tool use on every round up to and beyond the
cap `R = MAX_TOOL_ROUNDS = 2` (tools supplied, tool manager present), the
orchestrator makes exactly `R + 1 = 3` model calls in total, performs exactly
`R = 2` tool-dispatch rounds, and the parameters of the final model call
contain no tool definitions. -/
theorem C1_round_cap (g : AIGenerator) (client : Nat → ModelResponse)
    (query : String) (hist : Option String) (ts : List ToolDef)
    (tm : ToolManagerFn) (hts : ts ≠ [])
    (hall : ∀ k, (client k).stop_reason = "tool_use") :
    (g.generate_response client query hist (some ts) (some tm)).calls.length = 3 ∧
    (g.generate_response client query hist (some ts) (some tm)).dispatchRounds = 2 ∧
    (g.generate_response client query hist (some ts) (some tm)).calls.getLast?.map
      ApiParams.tools = some none := by
  have hne : ts.isEmpty = false := by
    cases ts with
    | nil => exact absurd rfl hts
    | cons a l => rfl
  refine ⟨?_, ?_, ?_⟩ <;>
    simp [AIGenerator.generate_response, AIGenerator._handle_tool_execution,
      handleRoundsLoop, AIGenerator.MAX_TOOL_ROUNDS, hall, hne]

/-- C1 witness. -/
theorem C1_round_cap_witness :
    ((AIGenerator.mk "model-x").generate_response alwaysToolClient "q" none
        (some [⟨"search_course_content"⟩]) (some okTM)).calls.length = 3 ∧
    ((AIGenerator.mk "model-x").generate_response alwaysToolClient "q" none
        (some [⟨"search_course_content"⟩]) (some okTM)).dispatchRounds = 2 ∧
    ((AIGenerator.mk "model-x").generate_response alwaysToolClient "q" none
        (some [⟨"search_course_content"⟩]) (some okTM)).calls.getLast?.map
      ApiParams.tools = some none :=
  C1_round_cap (AIGenerator.mk "model-x") alwaysToolClient "q" none
    [⟨"search_course_content"⟩] okTM (by decide) (fun k => rfl)

/-- C7: if the model stops requesting tools after `k < R` rounds, the
orchestrator makes exactly `k + 1` model calls (and `k` dispatch rounds),
not `R + 1`; with `R = 2` the possible cases are `k = 0` (direct answer) and
`k = 1` (one tool round). -/
theorem C7_early_termination (g : AIGenerator) (client : Nat → ModelResponse)
    (query : String) (hist : Option String) (tools : Option (List ToolDef))
    (tm : ToolManagerFn) :
    ((client 0).stop_reason ≠ "tool_use" →
      (g.generate_response client query hist tools (some tm)).calls.length = 1 ∧
      (g.generate_response client query hist tools (some tm)).dispatchRounds = 0) ∧
    ((client 0).stop_reason = "tool_use" → (client 1).stop_reason ≠ "tool_use" →
      (g.generate_response client query hist tools (some tm)).calls.length = 2 ∧
      (g.generate_response client query hist tools (some tm)).dispatchRounds = 1) := by
  constructor
  · intro h0
    constructor <;> simp [AIGenerator.generate_response, h0]
  · intro h0 h1
    constructor <;>
      simp [AIGenerator.generate_response, AIGenerator._handle_tool_execution,
        handleRoundsLoop, AIGenerator.MAX_TOOL_ROUNDS, h0, h1]

/-- C7 witness: one tool round, then a direct answer. -/
theorem C7_early_termination_witness :
    ((oneRoundClient 0).stop_reason = "tool_use") ∧
    ((oneRoundClient 1).stop_reason ≠ "tool_use") ∧
    (((AIGenerator.mk "model-x").generate_response oneRoundClient "q" none
        (some [⟨"search_course_content"⟩]) (some okTM)).calls.length = 2 ∧
      ((AIGenerator.mk "model-x").generate_response oneRoundClient "q" none
        (some [⟨"search_course_content"⟩]) (some okTM)).dispatchRounds = 1) :=
  ⟨rfl, by decide,
    (C7_early_termination (AIGenerator.mk "model-x") oneRoundClient "q" none
      (some [⟨"search_course_content"⟩]) okTM).2 rfl (by decide)⟩

/-- C9 counterexample: on the zero-round path the code runs
`response.content[0].text`; a terminal response with no content blocks makes
that raise (modelled as `result = none`), it does not return `""` as the
claim states. -/
theorem C9_final_text_counterexample :
    ((AIGenerator.mk "model-x").generate_response noTextClient "q" none none
        (some okTM)).result = none := rfl

/-- C9 (amended): after tool rounds the orchestrator returns the first
available text block of the final response — the response of the last model
call made — and `firstTextBlock` of a content list with no text block is
`""`, so a text-free final response yields `some ""` rather than a failure;
on the zero-round path it returns the text of the first content block when
that block is a text block (when it is not, an `IndexError`/`AttributeError`
escapes instead, see the counterexample). -/
theorem C9_final_text (g : AIGenerator) (client : Nat → ModelResponse)
    (query : String) (hist : Option String) (tools : Option (List ToolDef))
    (tm : ToolManagerFn) :
    ((client 0).stop_reason = "tool_use" →
      (g.generate_response client query hist tools (some tm)).result =
        some (firstTextBlock (client
          ((g.generate_response client query hist tools (some tm)).calls.length - 1)).content)) ∧
    ((client 0).stop_reason = "tool_use" →
      (g.generate_response client query hist tools (some tm)).result.isSome = true) ∧
    (∀ bs : List ContentBlock, (∀ b ∈ bs, b.isText = false) → firstTextBlock bs = "") ∧
    (∀ (s : String) (rest : List ContentBlock), (client 0).stop_reason ≠ "tool_use" →
      (client 0).content = ContentBlock.text s :: rest →
      (g.generate_response client query hist tools (some tm)).result = some s) := by
  refine ⟨?_, ?_, ?_, ?_⟩
  · intro h0
    simp only [AIGenerator.generate_response, h0, if_true, if_pos,
      AIGenerator._handle_tool_execution]
    exact handleRoundsLoop_final_text g client tm _ _ AIGenerator.MAX_TOOL_ROUNDS
      _ (client 0) 0 1 _ 0 rfl rfl
  · intro h0
    simp only [AIGenerator.generate_response, h0, if_true, if_pos,
      AIGenerator._handle_tool_execution]
    exact handleRoundsLoop_isSome _ _ _ _ _ _ _ _ _ _ _ _
  · intro bs
    induction bs with
    | nil => intro _; rfl
    | cons b rest ih =>
      intro h
      cases b with
      | text t =>
        exact absurd (h _ (List.mem_cons_self _ _)) (by simp [ContentBlock.isText])
      | tool_use n i d =>
        exact ih (fun x hx => h x (List.mem_cons_of_mem _ hx))
  · intro s rest h0 hc
    simp [AIGenerator.generate_response, h0, contentZeroText, hc]

/-- C9 witness: after one tool round whose terminal response has no text
block the orchestrator returns `some ""`, and a direct text answer is
returned unchanged. -/
theorem C9_final_text_witness :
    (((AIGenerator.mk "model-x").generate_response toolThenNoTextClient
        "q" none none (some okTM)).result = some "") ∧
    (((AIGenerator.mk "model-x").generate_response directClient
        "q" none none (some okTM)).result = some "final answer") := by
  constructor
  · rw [(C9_final_text (AIGenerator.mk "model-x") toolThenNoTextClient
        "q" none none okTM).1 rfl]
    rfl
  · exact (C9_final_text (AIGenerator.mk "model-x") directClient
      "q" none none okTM).2.2.2 "final answer" [] (by decide) rfl

/-- C2: an exception raised while executing a requested tool call (modelled
by the tool-manager function returning `Except.error e`) never propagates to
the caller (the orchestrator result is `some` string, never the `none` that
models an uncaught exception), and — whether the failing call is requested in
the first dispatch round (a `tool_use` block of the initial response) or in
the second, the only other round the cap `R = 2` admits (a `tool_use` block
of the follow-up response) — a recorded model call carries the feedback
message whose `tool_result` for that call is `"Tool execution error: " ++ e`,
a text containing the identifiable execution-error marker plus the exception
message. -/
theorem C2_execution_errors (g : AIGenerator) (client : Nat → ModelResponse)
    (query : String) (hist : Option String) (tools : Option (List ToolDef))
    (tm : ToolManagerFn) (name : String) (input : ToolInput) (id e : String)
    (h0 : (client 0).stop_reason = "tool_use")
    (he : tm name input = Except.error e) :
    (g.generate_response client query hist tools (some tm)).result.isSome = true ∧
    (ContentBlock.tool_use name input id ∈ (client 0).content →
      ∃ p ∈ (g.generate_response client query hist tools (some tm)).calls,
        ∃ rs : List ToolResultBlock,
          ({ role := "user", content := MessageContent.toolResults rs } : Message) ∈
            p.messages ∧
          ({ tool_use_id := id, content := "Tool execution error: " ++ e } :
            ToolResultBlock) ∈ rs) ∧
    ((client 1).stop_reason = "tool_use" →
      ContentBlock.tool_use name input id ∈ (client 1).content →
      ∃ p ∈ (g.generate_response client query hist tools (some tm)).calls,
        ∃ rs : List ToolResultBlock,
          ({ role := "user", content := MessageContent.toolResults rs } : Message) ∈
            p.messages ∧
          ({ tool_use_id := id, content := "Tool execution error: " ++ e } :
            ToolResultBlock) ∈ rs) ∧
    strContains ("Tool execution error: " ++ e) "Tool execution error" ∧
    strContains ("Tool execution error: " ++ e) e := by
  refine ⟨?_, ?_, ?_, ?_, ⟨"Tool execution error: ", "", (String.append_empty _).symm⟩⟩
  · simp only [AIGenerator.generate_response, h0, if_true, if_pos,
      AIGenerator._handle_tool_execution]
    exact handleRoundsLoop_isSome _ _ _ _ _ _ _ _ _ _ _ _
  · intro hb
    have hmem := runToolCalls_mem tm name input id e (client 0).content hb he
    have hne : (runToolCalls tm (client 0).content).isEmpty = false := by
      cases hrc : runToolCalls tm (client 0).content with
      | nil => rw [hrc] at hmem; cases hmem
      | cons a l => rfl
    simp only [AIGenerator.generate_response, h0, if_true, if_pos,
      AIGenerator._handle_tool_execution]
    obtain ⟨p, hp, hmsg⟩ := handleRoundsLoop_feedback g client tm _ _
      AIGenerator.MAX_TOOL_ROUNDS _ (client 0) 0 1 _ 0 (by decide) (by decide) hne
    exact ⟨p, hp, runToolCalls tm (client 0).content, hmsg, hmem⟩
  · intro h1 hb
    have hmem := runToolCalls_mem tm name input id e (client 1).content hb he
    have hne : (runToolCalls tm (client 1).content).isEmpty = false := by
      cases hrc : runToolCalls tm (client 1).content with
      | nil => rw [hrc] at hmem; cases hmem
      | cons a l => rfl
    simp only [AIGenerator.generate_response, h0, if_true, if_pos,
      AIGenerator._handle_tool_execution]
    obtain ⟨messages2, calls2, heq⟩ := handleRoundsLoop_step_max g client tm _ _
      _ (client 0) 0 1 _ 0 (by decide) h1
    rw [heq]
    obtain ⟨p, hp, hmsg⟩ := handleRoundsLoop_feedback g client tm _ _
      1 messages2 (client 1) (0 + 1) (1 + 1) calls2 (0 + 1) (by decide) (by decide) hne
    exact ⟨p, hp, runToolCalls tm (client 1).content, hmsg, hmem⟩
  · refine strContains_app_left ⟨"", ": ", by decide⟩ e

/-- C2 witness: a raising tool manager with a failing tool call requested in
the first round and in the second. -/
theorem C2_execution_errors_witness :
    (((AIGenerator.mk "model-x").generate_response alwaysToolClient "q" none none
        (some raiseTM)).result.isSome = true) ∧
    (∃ p ∈ ((AIGenerator.mk "model-x").generate_response alwaysToolClient "q" none none
        (some raiseTM)).calls,
      ∃ rs : List ToolResultBlock,
        ({ role := "user", content := MessageContent.toolResults rs } : Message) ∈
          p.messages ∧
        ({ tool_use_id := "toolu_1", content := "Tool execution error: " ++ "boom" } :
          ToolResultBlock) ∈ rs) ∧
    (∃ p ∈ ((AIGenerator.mk "model-x").generate_response alwaysToolClient "q" none none
        (some raiseTM)).calls,
      ∃ rs : List ToolResultBlock,
        ({ role := "user", content := MessageContent.toolResults rs } : Message) ∈
          p.messages ∧
        ({ tool_use_id := "toolu_1", content := "Tool execution error: " ++ "boom" } :
          ToolResultBlock) ∈ rs) ∧
    strContains ("Tool execution error: " ++ "boom") "Tool execution error" ∧
    strContains ("Tool execution error: " ++ "boom") "boom" :=
  ⟨(C2_execution_errors (AIGenerator.mk "model-x") alwaysToolClient "q" none none
      raiseTM "search_course_content" [("query", "q")] "toolu_1" "boom" rfl rfl).1,
   (C2_execution_errors (AIGenerator.mk "model-x") alwaysToolClient "q" none none
      raiseTM "search_course_content" [("query", "q")] "toolu_1" "boom" rfl rfl).2.1
     (List.mem_singleton.mpr rfl),
   (C2_execution_errors (AIGenerator.mk "model-x") alwaysToolClient "q" none none
      raiseTM "search_course_content" [("query", "q")] "toolu_1" "boom" rfl rfl).2.2.1
     rfl (List.mem_singleton.mpr rfl),
   (C2_execution_errors (AIGenerator.mk "model-x") alwaysToolClient "q" none none
      raiseTM "search_course_content" [("query", "q")] "toolu_1" "boom" rfl rfl).2.2.2.1,
   (C2_execution_errors (AIGenerator.mk "model-x") alwaysToolClient "q" none none
      raiseTM "search_course_content" [("query", "q")] "toolu_1" "boom" rfl rfl).2.2.2.2⟩

/-- C10: on every failure or empty path of `execute` of either tool — truthy
search error or empty documents for the search tool, failed course-name
resolution or failed metadata retrieval for the outline tool — the `last_sources` buffer of the tool is left unchanged; `get_last_sources` depends only on
the buffers of the registered tools (so previously recorded sources remain
visible); and `reset_sources` is what empties it. -/
theorem C10_sources_frame :
    (∀ (t : CourseSearchTool) (query : String) (course_name : Option String)
        (lesson_number : Option Int),
      (pyTruthyStr (t.store.search query course_name lesson_number).error = true ∨
        (t.store.search query course_name lesson_number).is_empty = true) →
      (t.execute query course_name lesson_number).2.last_sources = t.last_sources) ∧
    (∀ (t : CourseOutlineTool) (course_title : String),
      (pyTruthyStr (t.store._resolve_course_name course_title) = false ∨
        t.store.get_all_courses_metadata.find?
          (fun c => c.title ==
            some ((t.store._resolve_course_name course_title).getD "")) = none) →
      (t.execute course_title).2.last_sources = t.last_sources) ∧
    (∀ m m' : ToolManager,
      m.tools.map (fun p => (p.1, p.2.last_sources)) =
        m'.tools.map (fun p => (p.1, p.2.last_sources)) →
      m.get_last_sources = m'.get_last_sources) ∧
    (∀ m : ToolManager, m.reset_sources.get_last_sources = []) := by
  refine ⟨?_, ?_, ?_, ?_⟩
  · intro t query course_name lesson_number h
    simp only [CourseSearchTool.execute]
    by_cases herr : pyTruthyStr (t.store.search query course_name lesson_number).error = true
    · rw [if_pos herr]
    · rw [if_neg herr]
      have hemp : (t.store.search query course_name lesson_number).is_empty = true := by
        rcases h with h | h
        · exact absurd h herr
        · exact h
      rw [if_pos hemp]
  · intro t course_title h
    simp only [CourseOutlineTool.execute]
    by_cases hres : pyTruthyStr (t.store._resolve_course_name course_title) = true
    · rw [if_neg (by simp [hres])]
      have hfind : t.store.get_all_courses_metadata.find?
          (fun c => c.title ==
            some ((t.store._resolve_course_name course_title).getD "")) = none := by
        rcases h with h | h
        · exact absurd hres (by simp [h])
        · exact h
      rw [hfind]
    · rw [if_pos (by simpa using hres)]
  · intro m m' h
    exact get_last_sources_congr m.tools m'.tools h
  · intro m
    have : ∀ l : List (String × RegisteredTool),
        (l.map (fun p => (p.1, { p.2 with last_sources := ([] : List Source) }))).find?
          (fun p => !p.2.last_sources.isEmpty) = none := by
      intro l
      induction l with
      | nil => rfl
      | cons p t ih => simp [List.find?, ih]
    simp only [ToolManager.reset_sources, ToolManager.get_last_sources, this m.tools]

/-- C10 witness: a failing search and a failed outline resolution both leave
a previously recorded source visible. -/
theorem C10_sources_frame_witness :
    ((({ store := constStore ⟨[], [], some "Search failed"⟩,
          last_sources := [⟨"old", none⟩] } : CourseSearchTool).execute
        "q" none none).2.last_sources = [⟨"old", none⟩]) ∧
    ((({ store := constStore emptyResults,
          last_sources := [⟨"old", none⟩] } : CourseOutlineTool).execute
        "Missing Course").2.last_sources = [⟨"old", none⟩]) ∧
    (({ tools := [] } : ToolManager).reset_sources.get_last_sources = []) :=
  ⟨C10_sources_frame.1 _ "q" none none (Or.inl rfl),
   C10_sources_frame.2.1 _ "Missing Course" (Or.inl rfl),
   C10_sources_frame.2.2.2 _⟩

/-- C5 witness for the amended claim. -/
theorem C5_empty_message_witness :
    strContains ((searchToolOf emptyResults).execute "q" (some "MCP") (some 2)).1
      "No relevant content found" ∧
    strContains ((searchToolOf emptyResults).execute "q" (some "MCP") (some 2)).1 "MCP" ∧
    strContains ((searchToolOf emptyResults).execute "q" (some "MCP") (some 2)).1
      (toString (2 : Int)) :=
  ⟨(C5_empty_message (searchToolOf emptyResults) "q" (some "MCP") (some 2) rfl rfl).1,
   (C5_empty_message (searchToolOf emptyResults) "q" (some "MCP") (some 2) rfl rfl).2.1
     "MCP" rfl (by decide),
   (C5_empty_message (searchToolOf emptyResults) "q" (some "MCP") (some 2) rfl rfl).2.2
     2 rfl (by decide)⟩

end RagCore
